import Mathlib

/-!
Verification of the medical-VQA front-end's pure logic
(`src/medical_terms.py` and `src/streamlit_app.py`).

Texts are embedded as `List Char` (Python `str`); Python's `str.replace`
is embedded as `pyReplace`, with a fuel-indexed core so that it is
structurally recursive and kernel-computable.  Fallible dictionary
indexing (`dict[k]`, which raises `KeyError`) is embedded as `Option`
returning `none` on a missing key.
-/

/-- Python `str.isPrefixOf`-style occurrence test: does `t` occur as a
contiguous substring of `s`?  (Used to embed Python's `in` on strings.) -/
def occursIn (t : List Char) : List Char → Bool
  | [] => t.isEmpty
  | c :: cs => t.isPrefixOf (c :: cs) || occursIn t cs

/-- Core of Python `str.replace` for a non-empty pattern `t`: scan `s`
left to right; whenever `t` is a prefix of the remaining input, emit the
replacement `r` and skip over the matched pattern.  `fuel` bounds the
recursion; with `fuel ≥ s.length` and `t ≠ []` it never runs out. -/
def replaceCore (t r : List Char) : Nat → List Char → List Char
  | _, [] => []
  | 0, s => s
  | fuel + 1, c :: cs =>
    if t.isPrefixOf (c :: cs) then r ++ replaceCore t r fuel ((c :: cs).drop t.length)
    else c :: replaceCore t r fuel cs

/-- Python `s.replace(t, r)`: replaces every non-overlapping occurrence of
`t` in `s` by `r`, left to right.  For the empty pattern CPython inserts
`r` before every character and once at the end. -/
def pyReplace (s t r : List Char) : List Char :=
  if t.isEmpty then r ++ s.flatMap (fun c => c :: r)
  else replaceCore t r s.length s

/-- The term dictionary `MEDICAL_TERMS_AR` of `src/medical_terms.py`
(lines 3-50), as key/value pairs in Python insertion order (Python dicts
iterate in insertion order). -/
def MEDICAL_TERMS_AR : List (String × String) :=
  [ ("heart", "القلب"),
    ("lung", "الرئة"),
    ("lungs", "الرئتين"),
    ("brain", "المخ"),
    ("liver", "الكبد"),
    ("kidney", "الكلية"),
    ("stomach", "المعدة"),
    ("chest", "الصدر"),
    ("spine", "العمود الفقري"),
    ("bone", "العظم"),
    ("bones", "العظام"),
    ("rib", "الضلع"),
    ("ribs", "الأضلاع"),
    ("fracture", "كسر"),
    ("pneumonia", "التهاب رئوي"),
    ("tumor", "ورم"),
    ("infection", "عدوى"),
    ("inflammation", "التهاب"),
    ("abnormal", "غير طبيعي"),
    ("normal", "طبيعي"),
    ("mass", "كتلة"),
    ("lesion", "آفة"),
    ("swelling", "تورم"),
    ("x-ray", "أشعة سينية"),
    ("ct scan", "أشعة مقطعية"),
    ("mri", "رنين مغناطيسي"),
    ("ultrasound", "موجات فوق صوتية"),
    ("scan", "فحص"),
    ("image", "صورة"),
    ("medical image", "صورة طبية"),
    ("diagnosis", "تشخيص"),
    ("treatment", "علاج"),
    ("medication", "دواء"),
    ("doctor", "طبيب"),
    ("hospital", "مستشفى"),
    ("patient", "مريض"),
    ("symptoms", "أعراض"),
    ("pain", "ألم"),
    ("fever", "حمى") ]

/-- One iteration of the loop body of `get_medical_translation`
(line 57): `translated_text.replace(en_term, f"{en_term} ({ar_term})")`. -/
def annotateStep (acc : List Char) (p : String × String) : List Char :=
  pyReplace acc p.1.toList (p.1.toList ++ " (".toList ++ p.2.toList ++ ")".toList)

/-- `get_medical_translation(text, target_lang)` of
`src/medical_terms.py` lines 52-59: when the target language is `"ar"`,
fold the replacement over the dictionary entries in order; otherwise
return the text unchanged. -/
def get_medical_translation (text : List Char) (target_lang : String := "ar") : List Char :=
  if target_lang = "ar" then MEDICAL_TERMS_AR.foldl annotateStep text
  else text

/-- The English `"general"` template (lines 66-76 of
`src/medical_terms.py`), with the leading newline of the triple-quoted
literal and its trailing indented line. -/
def enGeneralTemplate : String :=
  "\nBased on the medical image analysis, I can provide general observations. However, please remember:\n\n🏥 **Important Medical Disclaimer:**\n- This is an AI analysis for informational purposes only\n- Always consult with qualified healthcare professionals\n- Do not use this for medical diagnosis or treatment decisions\n- Seek immediate medical attention for urgent health concerns\n\nFor a proper medical evaluation, please visit a licensed healthcare provider.\n            "

/-- The English `"image_analysis"` template (lines 77-82). -/
def enImageAnalysisTemplate : String :=
  "\n**Medical Image Analysis:**\nThe image shows various anatomical structures and findings. Key observations include medical features that should be evaluated by a qualified radiologist or physician.\n\n⚠️ **Medical Disclaimer:** This AI analysis is not a substitute for professional medical interpretation. Please consult with healthcare professionals for accurate diagnosis.\n            "

/-- The Arabic `"general"` template (lines 85-95). -/
def arGeneralTemplate : String :=
  "\nبناءً على تحليل الصورة الطبية، يمكنني تقديم ملاحظات عامة. ولكن يرجى تذكر:\n\n🏥 **إخلاء مسؤولية طبية مهم:**\n- هذا تحليل ذكي لأغراض إعلامية فقط\n- استشر دائماً أخصائيي الرعاية الصحية المؤهلين\n- لا تستخدم هذا للتشخيص الطبي أو قرارات العلاج\n- اطلب العناية الطبية الفورية للمخاوف الصحية العاجلة\n\nللحصول على تقييم طبي مناسب، يرجى زيارة مقدم رعاية صحية مرخص.\n            "

/-- The Arabic `"image_analysis"` template (lines 96-101). -/
def arImageAnalysisTemplate : String :=
  "\n**تحليل الصورة الطبية:**\nتُظهر الصورة هياكل تشريحية ونتائج مختلفة. تشمل الملاحظات الرئيسية الميزات الطبية التي يجب تقييمها من قبل أخصائي أشعة أو طبيب مؤهل.\n\n⚠️ **إخلاء مسؤولية طبية:** هذا التحليل الذكي ليس بديلاً عن التفسير الطبي المهني. يرجى استشارة أخصائيي الرعاية الصحية للحصول على تشخيص دقيق.\n            "

/-- Python `str.lower()`, character-wise (the inputs compared against are
ASCII, where `Char.toLower` agrees with Python). -/
def pyLower (s : List Char) : List Char :=
  s.map Char.toLower

/-- Python `str.split(sep)` for the single-character separator `'.'`:
splits on every dot; a string with no dot yields itself as the only
piece, and the empty string yields `[""]`. -/
def pySplitDot : List Char → List (List Char)
  | [] => [[]]
  | c :: cs =>
    if c = '.' then [] :: pySplitDot cs
    else
      match pySplitDot cs with
      | [] => [[c]]
      | piece :: rest => (c :: piece) :: rest

/-- The nested `templates` dictionary of `get_medical_response_template`
(lines 64-103), outer key the language code, inner key the template kind. -/
def templatesTable : List (String × List (String × String)) :=
  [ ("en", [("general", enGeneralTemplate), ("image_analysis", enImageAnalysisTemplate)]),
    ("ar", [("general", arGeneralTemplate), ("image_analysis", arImageAnalysisTemplate)]) ]

/-- `get_medical_response_template(lang, user_input)` of
`src/medical_terms.py` lines 61-109.  The Python code indexes
`templates[lang]` directly, which raises `KeyError` for a language
outside the table; this is embedded as `none`.  The kind is chosen by
line 106: `if "image" in user_input.lower() or not user_input`. -/
def get_medical_response_template (lang : String := "en") (user_input : String := "") : Option String :=
  match templatesTable.lookup lang with
  | none => none
  | some kinds =>
    if occursIn "image".toList (pyLower user_input.toList) || user_input = "" then
      kinds.lookup "image_analysis"
    else
      kinds.lookup "general"

/-- `MAX_FILE_SIZE` of `src/streamlit_app.py` line 29. -/
def MAX_FILE_SIZE : Nat := 10 * 1024 * 1024

/-- `SUPPORTED_FORMATS` of `src/streamlit_app.py` line 28. -/
def SUPPORTED_FORMATS : List String := ["jpg", "jpeg", "png", "bmp", "tiff"]

/-- A Streamlit uploaded file, as far as `validate_uploaded_file` reads
it: its `name` and its `size` in bytes. -/
structure UploadedFile where
  name : String
  size : Nat

/-- Line 246 of `src/streamlit_app.py`:
`uploaded_file.name.split('.')[-1].lower()`. -/
def fileExtension (name : String) : String :=
  String.mk (pyLower ((pySplitDot name.toList).getLastD []))

/-- `validate_uploaded_file(uploaded_file)` of `src/streamlit_app.py`
lines 236-250; `None` is embedded as `none`.  The size message renders
`MAX_FILE_SIZE/1024/1024` (Python float division) as `10.0`. -/
def validate_uploaded_file (uploaded_file : Option UploadedFile) : Bool × String :=
  match uploaded_file with
  | none => (false, "No file uploaded")
  | some f =>
    if f.size > MAX_FILE_SIZE then
      (false, "File size too large. Maximum size is 10.0MB")
    else if fileExtension f.name ∉ SUPPORTED_FORMATS then
      (false, "Unsupported file format. Supported formats: jpg, jpeg, png, bmp, tiff")
    else
      (true, "Valid file")

/-- Modelled from the spec: no language-detection function exists in
`src/` (the spec attributes `detect` to a variant of the app that is not
included); per spec §4.3, presence of any code point in the Arabic
Unicode block (U+0600 to U+06FF) yields `"ar"`, else `"en"`. -/
def detect (text : String) : String :=
  if text.toList.any (fun c => decide (0x0600 ≤ c.toNat) && decide (c.toNat ≤ 0x06FF)) then "ar"
  else "en"

/-! ## General lemmas about the embedded string operations -/

/-- `occursIn` agrees with contiguous-sublist (`IsInfix`) occurrence. -/
theorem occursIn_iff_infix (t : List Char) : ∀ s : List Char, occursIn t s = true ↔ t <:+: s := by
  intro s
  induction s with
  | nil => simp [occursIn]
  | cons c cs ih => simp [occursIn, ih, List.infix_cons_iff]

/-- When the replacement extends the pattern (`t ++ x`), replacing only
ever inserts: the input is a sublist of the output. -/
theorem sublist_replaceCore (t x : List Char) (ht : t ≠ []) :
    ∀ fuel s, s.length ≤ fuel → List.Sublist s (replaceCore t (t ++ x) fuel s) := by
  intro fuel
  induction fuel with
  | zero =>
    intro s hs
    have : s = [] := List.eq_nil_of_length_eq_zero (Nat.le_zero.mp hs)
    subst this
    simp [replaceCore]
  | succ fuel ih =>
    intro s hs
    match s with
    | [] => simp [replaceCore]
    | c :: cs =>
      rw [replaceCore]
      by_cases h : t.isPrefixOf (c :: cs)
      · rw [if_pos h]
        obtain ⟨s2, hs2⟩ := List.isPrefixOf_iff_prefix.mp h
        have hlt : 0 < t.length := List.length_pos.mpr ht
        have hlen : t.length + s2.length = cs.length + 1 := by
          rw [← List.length_append, hs2]; simp
        have hcs : cs.length + 1 ≤ fuel + 1 := by simpa using hs
        rw [← hs2, List.drop_left, List.append_assoc]
        exact List.Sublist.append (List.Sublist.refl t)
          ((ih s2 (by omega)).trans (List.sublist_append_right x _))
      · rw [if_neg h]
        exact (ih cs (by simpa using Nat.le_of_succ_le_succ (by simpa using hs))).cons₂ c

/-- If the pattern does not occur, `replaceCore` is the identity, for any
amount of fuel. -/
theorem replaceCore_eq_of_not_occurs (t r : List Char) :
    ∀ fuel s, occursIn t s = false → replaceCore t r fuel s = s := by
  intro fuel
  induction fuel with
  | zero => intro s h; cases s <;> simp [replaceCore]
  | succ fuel ih =>
    intro s h
    cases s with
    | nil => simp [replaceCore]
    | cons c cs =>
      simp only [occursIn, Bool.or_eq_false_iff] at h
      rw [replaceCore, if_neg (by simp [h.1]), ih cs h.2]

/-- A list is a sublist of the interleaving produced by the empty-pattern
case of `pyReplace`. -/
theorem sublist_flatMap_cons (r : List Char) :
    ∀ s : List Char, List.Sublist s (s.flatMap (fun c => c :: r)) := by
  intro s
  induction s with
  | nil => simp
  | cons c cs ih =>
    rw [List.flatMap_cons]
    exact (ih.trans (List.sublist_append_right r _)).cons₂ c

/-- `pyReplace` with a replacement that extends the pattern only inserts
text: the input is a sublist of the output. -/
theorem sublist_pyReplace (s t x : List Char) : List.Sublist s (pyReplace s t (t ++ x)) := by
  cases ht : t.isEmpty
  · rw [pyReplace, ht, if_neg (by simp)]
    exact sublist_replaceCore t x (by simpa [List.isEmpty_iff] using ht) s.length s (Nat.le_refl _)
  · rw [pyReplace, ht, if_pos rfl]
    exact (sublist_flatMap_cons _ s).trans (List.sublist_append_right _ _)

/-- `pyReplace` is the identity when the pattern does not occur. -/
theorem pyReplace_eq_of_not_occurs (s t r : List Char) (h : occursIn t s = false) :
    pyReplace s t r = s := by
  have ht : t ≠ [] := by
    intro he
    subst he
    cases s <;> simp [occursIn, List.isPrefixOf] at h
  rw [pyReplace, if_neg (by simpa [List.isEmpty_iff] using ht)]
  exact replaceCore_eq_of_not_occurs t r s.length s h

/-- Every step of the `get_medical_translation` loop only inserts text. -/
theorem sublist_foldl_annotate :
    ∀ (l : List (String × String)) (s : List Char), List.Sublist s (l.foldl annotateStep s) := by
  intro l
  induction l with
  | nil => intro s; exact List.Sublist.refl s
  | cons p l ih =>
    intro s
    have h1 : List.Sublist s (annotateStep s p) := by
      have := sublist_pyReplace s p.1.toList (" (".toList ++ p.2.toList ++ ")".toList)
      simpa [annotateStep, List.append_assoc] using this
    exact h1.trans (by simpa using ih (annotateStep s p))

/-- The `get_medical_translation` loop leaves a text untouched when no
dictionary key occurs in it. -/
theorem foldl_annotate_eq_of_not_occurs :
    ∀ (l : List (String × String)) (s : List Char),
      (∀ p ∈ l, occursIn p.1.toList s = false) → l.foldl annotateStep s = s := by
  intro l
  induction l with
  | nil => intro s _; rfl
  | cons p l ih =>
    intro s h
    have h1 : annotateStep s p = s :=
      pyReplace_eq_of_not_occurs _ _ _ (h p (List.mem_cons_self _ _))
    rw [List.foldl_cons, h1, ih s (fun q hq => h q (List.mem_cons_of_mem p hq))]

/-! ## Claim C1 -/

/-- Claim C1 counterexample: for the unsupported language code `"fr"`,
`get_medical_response_template` does not return the English template for
the selected kind; the direct indexing `templates[lang]` raises
`KeyError` (embedded as `none`). -/
theorem C1_counterexample :
    get_medical_response_template "fr" "" = none ∧
    get_medical_response_template "fr" "" ≠ some enImageAnalysisTemplate := by
  constructor <;> decide

/-- Claim C1, amended: for every `user_input` and every language code
outside the supported set, `get_medical_response_template` raises
`KeyError` (embedded as `none`) instead of falling back to English. -/
theorem C1_amended_thm (lang user_input : String) (h1 : lang ≠ "en") (h2 : lang ≠ "ar") :
    get_medical_response_template lang user_input = none := by
  have b1 : (lang == "en") = false := beq_eq_false_iff_ne.mpr h1
  have b2 : (lang == "ar") = false := beq_eq_false_iff_ne.mpr h2
  have hl : templatesTable.lookup lang = none := by
    simp [templatesTable, List.lookup, b1, b2]
  rw [get_medical_response_template, hl]

/-- Claim C1 witness: the amended claim at the concrete language `"fr"`. -/
theorem C1_witness : get_medical_response_template "fr" "hello" = none :=
  C1_amended_thm "fr" "hello" (by decide) (by decide)

/-! ## Claim C2 -/

set_option maxRecDepth 10000 in
/-- Claim C2 counterexample: annotation is not idempotent; applying
`get_medical_translation` twice to `"heart"` differs from applying it
once, because the annotated text still contains the English key. -/
theorem C2_counterexample :
    get_medical_translation (get_medical_translation "heart".toList "ar") "ar"
      ≠ get_medical_translation "heart".toList "ar" := by decide

set_option maxRecDepth 10000 in
/-- Claim C2, amended: annotate-mode substitution is not idempotent; a
second application re-annotates an already-annotated term, appending a
second copy of the parenthesised translation. -/
theorem C2_amended_thm :
    get_medical_translation "heart".toList "ar" = "heart (القلب)".toList
    ∧ get_medical_translation (get_medical_translation "heart".toList "ar") "ar"
        = "heart (القلب) (القلب)".toList := by
  constructor <;> decide

/-! ## Claim C3 -/

set_option maxRecDepth 10000 in
/-- Claim C3 counterexample: in
`get_medical_translation "ct scan shows a fracture" "ar"` the shorter key
`"scan"` IS additionally substituted inside the annotated `"ct scan"`
occurrence: the output contains `"(فحص)"`, the translation of `"scan"`. -/
theorem C3_counterexample :
    occursIn "(فحص)".toList (get_medical_translation "ct scan shows a fracture".toList "ar") = true := by
  decide

set_option maxRecDepth 10000 in
/-- Claim C3, amended: `"ct scan"` is first annotated as a unit (it
precedes `"scan"` in the dictionary iteration order), but the later key
`"scan"` is then additionally substituted inside that annotated
occurrence, yielding a doubly-annotated result. -/
theorem C3_amended_thm :
    get_medical_translation "ct scan shows a fracture".toList "ar"
      = "ct scan (فحص) (أشعة مقطعية) shows a fracture (كسر)".toList := by
  decide

/-! ## Claim C4 -/

set_option maxRecDepth 10000 in
/-- Claim C4 counterexample: matching is case-sensitive, not
case-insensitive: the occurrence `"Heart"` of the key `"heart"` is not
matched, the text comes back unchanged and no translation is inserted. -/
theorem C4_counterexample :
    get_medical_translation "Heart".toList "ar" = "Heart".toList
    ∧ occursIn "القلب".toList (get_medical_translation "Heart".toList "ar") = false := by
  constructor <;> decide

set_option maxRecDepth 10000 in
/-- Claim C4, amended: term matching is case-sensitive substring
matching: an exact lowercase occurrence of a key is annotated, while a
differently-cased occurrence of the same key is left untouched. -/
theorem C4_amended_thm :
    get_medical_translation "Heart".toList "ar" = "Heart".toList
    ∧ get_medical_translation "heart".toList "ar" = "heart (القلب)".toList := by
  constructor <;> decide

/-! ## Claim C5 -/

set_option maxRecDepth 10000 in
/-- Claim C5: evaluating the code at the failing input. `"chest"`,
`"x-ray"` and `"normal"` are annotated as the claim says, but `"lungs"`
is captured by the earlier key `"lung"` (yielding `"lung (الرئة)s"`); the
dictionary entry for `"lungs"` (`"الرئتين"`) never fires. -/
theorem C5_code_eval :
    get_medical_translation "chest x-ray shows normal lungs".toList "ar"
      = "chest (الصدر) x-ray (أشعة سينية) shows normal (طبيعي) lung (الرئة)s".toList
    ∧ occursIn "الرئتين".toList
        (get_medical_translation "chest x-ray shows normal lungs".toList "ar") = false := by
  constructor <;> decide

/-! ## Claim C6 -/

set_option maxRecDepth 40000 in
/-- Claim C6: for each supported language code, the composer returns a
non-empty template both for the image-analysis kind (selected by an empty
`user_input`) and for the general kind (selected by a non-empty
`user_input` not containing `"image"`), and the two templates differ. -/
theorem C6_thm (L : String) (hL : L = "en" ∨ L = "ar") :
    (∃ s, get_medical_response_template L "" = some s ∧ s ≠ "")
    ∧ (∃ s, get_medical_response_template L "hello" = some s ∧ s ≠ "")
    ∧ get_medical_response_template L "" ≠ get_medical_response_template L "hello" := by
  rcases hL with rfl | rfl
  · exact ⟨⟨enImageAnalysisTemplate, by decide, by decide⟩,
      ⟨enGeneralTemplate, by decide, by decide⟩, by decide⟩
  · exact ⟨⟨arImageAnalysisTemplate, by decide, by decide⟩,
      ⟨arGeneralTemplate, by decide, by decide⟩, by decide⟩

/-- Claim C6 witness: the two kinds give distinct strings for `"en"`. -/
theorem C6_witness :
    get_medical_response_template "en" "" ≠ get_medical_response_template "en" "hello" :=
  (C6_thm "en" (Or.inl rfl)).2.2

/-! ## Claim C7 -/

/-- Claim C7: `detect` returns `"ar"` exactly when the text contains a
code point of the Arabic Unicode block (U+0600 to U+06FF) and `"en"`
otherwise; in particular on the three example inputs. -/
theorem C7_thm :
    (∀ text : String,
      (detect text = "ar" ↔ ∃ c ∈ text.toList, 0x0600 ≤ c.toNat ∧ c.toNat ≤ 0x06FF)
      ∧ (detect text = "ar" ∨ detect text = "en"))
    ∧ detect "What is this?" = "en" ∧ detect "ما هذا؟" = "ar" ∧ detect "" = "en" := by
  refine ⟨fun text => ?_, by decide, by decide, by decide⟩
  unfold detect
  by_cases h : text.toList.any
      (fun c => decide (0x0600 ≤ c.toNat) && decide (c.toNat ≤ 0x06FF)) = true
  · rw [if_pos h]
    simp only [List.any_eq_true, Bool.and_eq_true, decide_eq_true_eq] at h
    exact ⟨⟨fun _ => by simpa using h, fun _ => rfl⟩, Or.inl rfl⟩
  · rw [if_neg h]
    refine ⟨⟨fun he => absurd he (by decide), fun hex => ?_⟩, Or.inr rfl⟩
    obtain ⟨c, hc, h1, h2⟩ := hex
    exact absurd (List.any_eq_true.mpr ⟨c, hc, by simp [h1, h2]⟩) h

/-! ## Claim C8 -/

/-- Claim C8: `validate_uploaded_file` succeeds with `(true, "Valid
file")` exactly when a file is present, its size is at most
`MAX_FILE_SIZE`, and its lowercased last-dot extension is a supported
format; equivalently, it fails exactly when the file is missing,
oversized, or of unsupported extension. -/
theorem C8_thm (f : Option UploadedFile) :
    (validate_uploaded_file f = (true, "Valid file") ↔
      ∃ u, f = some u ∧ u.size ≤ MAX_FILE_SIZE ∧ fileExtension u.name ∈ SUPPORTED_FORMATS)
    ∧ ((validate_uploaded_file f).1 = false ↔
      (f = none ∨ ∃ u, f = some u ∧
        (MAX_FILE_SIZE < u.size ∨ fileExtension u.name ∉ SUPPORTED_FORMATS))) := by
  cases f with
  | none => constructor <;> simp [validate_uploaded_file]
  | some u =>
    rw [validate_uploaded_file]
    by_cases h1 : u.size > MAX_FILE_SIZE
    · rw [if_pos h1]
      constructor
      · simp only [Prod.mk.injEq]
        constructor
        · rintro ⟨h, -⟩; exact absurd h (by decide)
        · rintro ⟨v, hv, hs, -⟩
          obtain rfl : u = v := by injection hv
          omega
      · simp only [Option.some.injEq]
        constructor
        · intro _; exact Or.inr ⟨u, rfl, Or.inl h1⟩
        · intro _; trivial
    · rw [if_neg h1]
      by_cases h2 : fileExtension u.name ∉ SUPPORTED_FORMATS
      · rw [if_pos h2]
        constructor
        · simp only [Prod.mk.injEq]
          constructor
          · rintro ⟨h, -⟩; exact absurd h (by decide)
          · rintro ⟨v, hv, -, hf⟩
            obtain rfl : u = v := by injection hv
            exact absurd hf h2
        · constructor
          · intro _; exact Or.inr ⟨u, rfl, Or.inr h2⟩
          · intro _; trivial
      · rw [if_neg h2]
        push_neg at h2
        constructor
        · constructor
          · intro _; exact ⟨u, rfl, by omega, h2⟩
          · intro _; trivial
        · constructor
          · intro h; exact absurd h (by decide)
          · rintro (h | ⟨v, hv, h⟩)
            · exact absurd h (by simp)
            · obtain rfl : u = v := by injection hv
              rcases h with h | h
              · omega
              · exact absurd h2 h

/-! ## Claim C9 -/

/-- Claim C9: for every text and every target language other than
`"ar"`, `get_medical_translation` returns the text unchanged. -/
theorem C9_thm (text : List Char) (target_lang : String) (h : target_lang ≠ "ar") :
    get_medical_translation text target_lang = text := by
  rw [get_medical_translation, if_neg h]

/-- Claim C9 witness: translation to `"en"` is the identity on a
concrete text. -/
theorem C9_witness : get_medical_translation "heart".toList "en" = "heart".toList :=
  C9_thm "heart".toList "en" (by decide)

/-! ## Claim C10 -/

/-- Claim C10: annotate-mode translation only inserts text — the input
is always a character subsequence of the output — and a text in which no
dictionary key occurs as a substring is returned unchanged. -/
theorem C10_thm (text : List Char) :
    List.Sublist text (get_medical_translation text "ar")
    ∧ ((∀ p ∈ MEDICAL_TERMS_AR, ¬ (p.1.toList <:+: text)) →
        get_medical_translation text "ar" = text) := by
  constructor
  · rw [get_medical_translation, if_pos rfl]
    exact sublist_foldl_annotate _ _
  · intro h
    rw [get_medical_translation, if_pos rfl]
    refine foldl_annotate_eq_of_not_occurs _ _ (fun p hp => ?_)
    have hi := h p hp
    rw [← occursIn_iff_infix] at hi
    exact Bool.eq_false_iff.mpr hi

/-- Claim C10 witness: at the concrete keyless text `"zzz"`, the text is
a sublist of its translation and the translation is the identity. -/
theorem C10_witness :
    List.Sublist "zzz".toList (get_medical_translation "zzz".toList "ar")
    ∧ get_medical_translation "zzz".toList "ar" = "zzz".toList :=
  ⟨(C10_thm "zzz".toList).1, (C10_thm "zzz".toList).2 (by decide)⟩
